import Mathlib

/-!
Verification of the Tirelire API group-savings core: group membership
(capacity, eligibility gates, roles), the contribution lifecycle state
machine, contribution generation, overdue reporting, and the send-message
target validator.  Identifiers are natural numbers; instants of time are
natural numbers (milliseconds since the epoch, as `Date.getTime()`).
-/

namespace Tirelire

instance {ε α : Type} [DecidableEq ε] [DecidableEq α] : DecidableEq (Except ε α) :=
  fun x y =>
    match x, y with
    | Except.ok a, Except.ok b => decidable_of_iff (a = b) (by simp)
    | Except.error a, Except.error b => decidable_of_iff (a = b) (by simp)
    | Except.ok _, Except.error _ => isFalse (by simp)
    | Except.error _, Except.ok _ => isFalse (by simp)

abbrev UserId := Nat
abbrev GroupId := Nat
abbrev PaymentId := Nat
abbrev Time := Nat

/-- Member role inside a group, per the `members.role` enum. -/
inductive MemberRole
  | ADMIN
  | MEMBER
deriving DecidableEq, Repr

/-- Per-membership status, per the `members.status` enum. -/
inductive MemberStatus
  | ACTIVE
  | INACTIVE
deriving DecidableEq, Repr

/-- Group lifecycle status. -/
inductive GroupStatus
  | ACTIVE
  | CANCELLED
  | COMPLETED
deriving DecidableEq, Repr

/-- Contribution cadence of a group. -/
inductive Frequency
  | WEEKLY
  | MONTHLY
deriving DecidableEq, Repr

/-- One membership record: `{user, role, status, joinedAt}`. -/
structure Membership where
  user : UserId
  role : MemberRole
  mstatus : MemberStatus
  joinedAt : Time
deriving DecidableEq, Repr

/-- Group settings: contribution terms, window, capacity and the join gates. -/
structure GroupSettings where
  contributionAmount : Int
  contributionFrequency : Frequency
  startDate : Time
  endDate : Time
  maxMembers : Nat
  isPublic : Bool
  requiresKyc : Bool
  minReliabilityScore : Nat
deriving DecidableEq, Repr

/-- A group document: creator, member list, settings and lifecycle flags. -/
structure Group where
  id : GroupId
  creator : UserId
  members : List Membership
  settings : GroupSettings
  gstatus : GroupStatus
  isActive : Bool
deriving DecidableEq, Repr

/-- The slice of a user document consulted by the join gates. -/
structure User where
  id : UserId
  isActive : Bool
  isKycVerified : Bool
  reliabilityScore : Nat
deriving DecidableEq, Repr

/-- The named domain errors of the error taxonomy. -/
inductive DomainError
  | ALREADY_MEMBER
  | GROUP_FULL
  | KYC_REQUIRED
  | RELIABILITY_TOO_LOW
  | NOT_MEMBER
  | CREATOR_CANNOT_LEAVE
  | GROUP_NOT_ACTIVE
  | GROUP_NOT_FOUND
  | INVALID_STATE_TRANSITION
  | PAYMENT_NOT_SETTLED
  | CONTRIBUTION_NOT_FOUND
  | NOT_GROUP_MEMBER
  | INVALID_DUE_DATE
  | DUPLICATE_CONTRIBUTION
  | INSUFFICIENT_PERMISSIONS
  | INVALID_START_DATE
  | INVALID_END_DATE
  | VALIDATION
  | CREATOR_NOT_ACTIVE
deriving DecidableEq, Repr

/-- Modelled from the spec: the Group model file (`src/models/Group.js`) is
absent from the tree, only its unit tests remain.  `isMember(group, userId)`
is the membership lookup over the member list. -/
def isMember (g : Group) (uid : UserId) : Bool :=
  g.members.any (fun m => m.user = uid)

/-- Modelled from the spec: `isAdmin(group, userId)` is true iff the user is
the creator or holds the ADMIN role among the members (spec chooses this
combined rule and applies it uniformly). -/
def isAdmin (g : Group) (uid : UserId) : Bool :=
  uid = g.creator || g.members.any (fun m => m.user = uid && m.role = MemberRole.ADMIN)

/-- Modelled from the spec: `canJoin(group, user)` checks the four join gates
in order — already a member, capacity, KYC requirement, reliability floor —
and reports the first violated gate. -/
def canJoin (g : Group) (u : User) : Option DomainError :=
  if isMember g u.id then some DomainError.ALREADY_MEMBER
  else if g.settings.maxMembers ≤ g.members.length then some DomainError.GROUP_FULL
  else if g.settings.requiresKyc && !u.isKycVerified then some DomainError.KYC_REQUIRED
  else if u.reliabilityScore < g.settings.minReliabilityScore then
    some DomainError.RELIABILITY_TOO_LOW
  else none

/-- Modelled from the spec: `addMember(group, userId)` applies `canJoin` and,
when every gate passes, appends `{userId, role: MEMBER, status: ACTIVE,
joinedAt: now}`; any gate failure is raised as its named error. -/
def addMember (g : Group) (u : User) (now : Time) : Except DomainError Group :=
  match canJoin g u with
  | some e => Except.error e
  | none =>
    Except.ok { g with members := g.members ++ [⟨u.id, MemberRole.MEMBER, MemberStatus.ACTIVE, now⟩] }

/-- Modelled from the spec: `canLeave(group, userId)` fails with `NOT_MEMBER`
when the user is absent and with `CREATOR_CANNOT_LEAVE` when the user is the
creator (this order matches the service unit tests). -/
def canLeave (g : Group) (uid : UserId) : Option DomainError :=
  if !(isMember g uid) then some DomainError.NOT_MEMBER
  else if uid = g.creator then some DomainError.CREATOR_CANNOT_LEAVE
  else none

/-- Modelled from the spec: `removeMember(group, userId)` applies `canLeave`
and removes the membership record. -/
def removeMember (g : Group) (uid : UserId) : Except DomainError Group :=
  match canLeave g uid with
  | some e => Except.error e
  | none => Except.ok { g with members := g.members.filter (fun m => m.user ≠ uid) }

/-- Modelled from the spec: `Group.updateMemberRole(userId, newRole)` per its
unit tests — it takes no acting-user argument, throws only when the user is
not a member, and otherwise sets that member's role to the new role. -/
def updateMemberRole (g : Group) (uid : UserId) (newRole : MemberRole) :
    Except DomainError Group :=
  if isMember g uid then
    Except.ok
      { g with members := g.members.map (fun m => if m.user = uid then { m with role := newRole } else m) }
  else Except.error DomainError.NOT_MEMBER

/-- Modelled from the spec: `GroupService.joinGroup` requires the group to be
active, then applies the membership policy (`canJoin` + append). -/
def joinGroup (g : Group) (u : User) (now : Time) : Except DomainError Group :=
  if g.isActive && g.gstatus = GroupStatus.ACTIVE then addMember g u now
  else Except.error DomainError.GROUP_NOT_ACTIVE

/-- Modelled from the spec: `GroupService.leaveGroup` applies `canLeave` and
removes the membership record (its unit tests show no group-status gate on
leaving). -/
def leaveGroup (g : Group) (uid : UserId) : Except DomainError Group :=
  removeMember g uid

/-- Modelled from the spec: `create(settingsInput, creatorId)` validates the
date window, amount and capacity, requires an active creator account, and on
success persists a group whose sole member is the creator with role ADMIN. -/
def createGroup (gid : GroupId) (s : GroupSettings) (creator : User) (now : Time) :
    Except DomainError Group :=
  if ¬ (now < s.startDate) then Except.error DomainError.INVALID_START_DATE
  else if ¬ (s.startDate < s.endDate) then Except.error DomainError.INVALID_END_DATE
  else if ¬ (0 < s.contributionAmount) then Except.error DomainError.VALIDATION
  else if ¬ (0 < s.maxMembers) then Except.error DomainError.VALIDATION
  else if ¬ creator.isActive then Except.error DomainError.CREATOR_NOT_ACTIVE
  else
    Except.ok
      { id := gid, creator := creator.id,
        members := [⟨creator.id, MemberRole.ADMIN, MemberStatus.ACTIVE, now⟩],
        settings := s, gstatus := GroupStatus.ACTIVE, isActive := true }

/-- Stored contribution status enum. `OVERDUE` is listed in the enum but is
never stored by any operation: overdue is a derived read of PENDING past its
due date. -/
inductive ContributionStatus
  | PENDING
  | PAID
  | OVERDUE
  | CANCELLED
deriving DecidableEq, Repr

/-- Payment status as consumed by `markAsPaid`. -/
inductive PaymentStatus
  | PENDING
  | SUCCEEDED
  | FAILED
deriving DecidableEq, Repr

/-- One penalty entry: `{amount, reason, appliedAt}`. -/
structure Penalty where
  amount : Int
  reason : String
  appliedAt : Time
deriving DecidableEq, Repr

/-- A contribution document: one member's obligation for one period. -/
structure Contribution where
  group : GroupId
  user : UserId
  amount : Int
  dueDate : Time
  period : Time
  description : String
  cstatus : ContributionStatus
  penalties : List Penalty
  payment : Option PaymentId
  paidAt : Option Time
  cancelReason : Option String
deriving DecidableEq, Repr

/-- The slice of a payment document consumed by `markAsPaid`. -/
structure Payment where
  id : PaymentId
  user : UserId
  pstatus : PaymentStatus
deriving DecidableEq, Repr

/-- Modelled from the spec: the derived overdue predicate
`isOverdue = status == PENDING && now > dueDate` (never a stored status). -/
def isOverdue (c : Contribution) (now : Time) : Bool :=
  c.cstatus = ContributionStatus.PENDING && c.dueDate < now

/-- Modelled from the spec: `markAsPaid` requires current status PENDING else
`INVALID_STATE_TRANSITION`, requires the referenced payment SUCCEEDED and
owned by the contribution's user else `PAYMENT_NOT_SETTLED`, then sets status
PAID, links the payment and stamps `paidAt`. -/
def markAsPaid (c : Contribution) (pay : Payment) (now : Time) :
    Except DomainError Contribution :=
  if c.cstatus = ContributionStatus.PENDING then
    if pay.pstatus = PaymentStatus.SUCCEEDED ∧ pay.user = c.user then
      Except.ok
        { c with cstatus := ContributionStatus.PAID, payment := some pay.id, paidAt := some now }
    else Except.error DomainError.PAYMENT_NOT_SETTLED
  else Except.error DomainError.INVALID_STATE_TRANSITION

/-- Modelled from the spec: `addPenalty` requires status PENDING/OVERDUE (not
PAID/CANCELLED) else `INVALID_STATE_TRANSITION`, and appends a penalty entry. -/
def addPenalty (c : Contribution) (amount : Int) (reason : String) (now : Time) :
    Except DomainError Contribution :=
  if c.cstatus = ContributionStatus.PENDING ∨ c.cstatus = ContributionStatus.OVERDUE then
    Except.ok { c with penalties := c.penalties ++ [⟨amount, reason, now⟩] }
  else Except.error DomainError.INVALID_STATE_TRANSITION

/-- Modelled from the spec: `cancel` requires a status that is not already
terminal and sets status CANCELLED with the given reason. -/
def cancel (c : Contribution) (reason : String) : Except DomainError Contribution :=
  if c.cstatus = ContributionStatus.PAID ∨ c.cstatus = ContributionStatus.CANCELLED then
    Except.error DomainError.INVALID_STATE_TRANSITION
  else Except.ok { c with cstatus := ContributionStatus.CANCELLED, cancelReason := some reason }

/-- Modelled from the spec: `ContributionService.updateContribution` patches
descriptive fields only; per its unit test the update payload is the
description, and the status is untouched. -/
def updateContribution (c : Contribution) (desc : String) : Except DomainError Contribution :=
  Except.ok { c with description := desc }

/-- Modelled from the spec: ad-hoc `Contribution.create` — requires membership
of the group (`NOT_GROUP_MEMBER`), a strictly future due date
(`INVALID_DUE_DATE`) and no existing contribution for the same
(group, user, period) (`DUPLICATE_CONTRIBUTION`); the new contribution starts
PENDING. -/
def createContribution (existing : List Contribution) (g : Group) (uid : UserId)
    (amount : Int) (dueDate : Time) (desc : String) (now : Time) :
    Except DomainError Contribution :=
  if ¬ isMember g uid then Except.error DomainError.NOT_GROUP_MEMBER
  else if ¬ (now < dueDate) then Except.error DomainError.INVALID_DUE_DATE
  else if existing.any (fun c => c.group = g.id && c.user = uid && c.period = dueDate) then
    Except.error DomainError.DUPLICATE_CONTRIBUTION
  else
    Except.ok
      { group := g.id, user := uid, amount := amount, dueDate := dueDate, period := dueDate,
        description := desc, cstatus := ContributionStatus.PENDING, penalties := [],
        payment := none, paidAt := none, cancelReason := none }

/-- Cadence step, in days, of a contribution frequency. -/
def freqStep : Frequency → Nat
  | Frequency.WEEKLY => 7
  | Frequency.MONTHLY => 30

/-- Modelled from the spec: the ordered, finite sequence of period boundaries
between `s` and `e` at a positive cadence step. -/
def periodMarkers (step : Nat) (s e : Nat) : List Time :=
  if h : s ≤ e ∧ 0 < step then s :: periodMarkers step (s + step) e else []
termination_by e + 1 - s
decreasing_by
  obtain ⟨h1, h2⟩ := h
  omega

/-- Whether some contribution for the (group, user, period) key already exists. -/
def hasContribution (cs : List Contribution) (gid : GroupId) (uid : UserId) (p : Time) : Bool :=
  cs.any (fun c => c.group = gid && c.user = uid && c.period = p)

/-- The currently ACTIVE members of a group. -/
def activeMembers (g : Group) : List Membership :=
  g.members.filter (fun m => m.mstatus = MemberStatus.ACTIVE)

/-- The contribution the generator creates for one member and one period
marker: amount from the group settings, due at the period marker, PENDING. -/
def generatedContribution (g : Group) (uid : UserId) (p : Time) : Contribution :=
  { group := g.id, user := uid, amount := g.settings.contributionAmount,
    dueDate := p, period := p, description := "", cstatus := ContributionStatus.PENDING,
    penalties := [], payment := none, paidAt := none, cancelReason := none }

/-- Modelled from the spec: `generate(group, periodStart, periodEnd)` walks
the cross-product of period markers and ACTIVE members, skips periods before
a member's `joinedAt` and any (group, user, period) that already has a
contribution, and returns the newly created contributions. -/
def generateContributions (cs : List Contribution) (g : Group) (s e : Time) :
    List Contribution :=
  (periodMarkers (freqStep g.settings.contributionFrequency) s e).flatMap (fun p =>
    (activeMembers g).filterMap (fun m =>
      if p < m.joinedAt then none
      else if hasContribution cs g.id m.user p then none
      else some (generatedContribution g m.user p)))

/-- Modelled from the spec: `getOverdue(groupId)` — the stored contributions
that satisfy the shared `isOverdue` predicate. -/
def findOverdue (cs : List Contribution) (now : Time) : List Contribution :=
  cs.filter (fun c => isOverdue c now)

/-- Group-level contribution statistics: `{total, paid, pending, overdue,
totalAmount}`. -/
structure ContributionStats where
  total : Nat
  paid : Nat
  pending : Nat
  overdue : Nat
  totalAmount : Int
deriving DecidableEq, Repr

/-- Modelled from the spec: `getStatistics(groupId)` — read-only aggregation
over the stored contributions, with the overdue count computed by the same
`isOverdue` predicate as `getOverdue`. -/
def getStatistics (cs : List Contribution) (now : Time) : ContributionStats :=
  { total := cs.length,
    paid := (cs.filter (fun c => c.cstatus = ContributionStatus.PAID)).length,
    pending := (cs.filter (fun c => c.cstatus = ContributionStatus.PENDING)).length,
    overdue := (cs.filter (fun c => isOverdue c now)).length,
    totalAmount := (cs.map (fun c => c.amount)).sum }

/-- The body fields of a send-message request that the target validation
reads (`recipientId`, `groupId`, `content`); a `none` field is an absent key. -/
structure SendMessageBody where
  recipientId : Option String
  groupId : Option String
  content : String
deriving DecidableEq, Repr

/-- `MESSAGING.MAX_MESSAGE_LENGTH` from the configuration constants (the
constants file is absent from the tree; the bound's exact value is irrelevant
to the target validation). -/
def maxMessageLength : Nat := 1000

/-- JavaScript truthiness of an optional string field: absent keys and empty
strings are falsy, any non-empty string is truthy. -/
def jsTruthy : Option String → Bool
  | none => false
  | some s => ¬ (s = "")

/-- The `messageValidation.sendMessage` Joi schema restricted to the fields
the target rule reads: per-field checks (present-but-empty `recipientId` or
`groupId` fails, `content` required and bounded) followed by the custom rule
that exactly one of `recipientId`/`groupId` must be provided. -/
def sendMessageValidate (b : SendMessageBody) : Except String Unit :=
  if b.recipientId = some "" then Except.error "Recipient ID cannot be empty"
  else if b.groupId = some "" then Except.error "Group ID cannot be empty"
  else if b.content = "" then Except.error "Message content is required"
  else if maxMessageLength < b.content.length then
    Except.error "Message cannot exceed the maximum length"
  else if !(jsTruthy b.recipientId) && !(jsTruthy b.groupId) then
    Except.error "Either recipientId or groupId must be provided"
  else if jsTruthy b.recipientId && jsTruthy b.groupId then
    Except.error "Cannot specify both recipientId and groupId"
  else Except.ok ()

/-- Whether a validation outcome lets the request through to the handler. -/
def validationPasses {ε α : Type} : Except ε α → Bool
  | Except.ok _ => true
  | Except.error _ => false

/-! ### Supporting lemmas -/

theorem canJoin_eq_none (g : Group) (u : User) :
    canJoin g u = none ↔
      isMember g u.id = false ∧ g.members.length < g.settings.maxMembers ∧
      (g.settings.requiresKyc && !u.isKycVerified) = false ∧
      g.settings.minReliabilityScore ≤ u.reliabilityScore := by
  unfold canJoin
  split_ifs with h1 h2 h3 h4 <;> simp_all

theorem addMember_ok (g g' : Group) (u : User) (now : Time)
    (h : addMember g u now = Except.ok g') :
    canJoin g u = none ∧
      g' = { g with
              members := g.members ++ [⟨u.id, MemberRole.MEMBER, MemberStatus.ACTIVE, now⟩] } := by
  unfold addMember at h
  split at h
  · exact absurd h (by simp)
  · next heq => exact ⟨heq, by injection h with h; exact h.symm⟩

theorem canLeave_eq_none (g : Group) (uid : UserId) :
    canLeave g uid = none ↔ isMember g uid = true ∧ uid ≠ g.creator := by
  unfold canLeave
  split_ifs with h1 h2 <;> simp_all

theorem removeMember_ok (g g' : Group) (uid : UserId)
    (h : removeMember g uid = Except.ok g') :
    canLeave g uid = none ∧
      g' = { g with members := g.members.filter (fun m => m.user ≠ uid) } := by
  unfold removeMember at h
  split at h
  · exact absurd h (by simp)
  · next heq => exact ⟨heq, by injection h with h; exact h.symm⟩

/-! ### C1 — group capacity invariant -/

/-- C1: the member list never exceeds `settings.maxMembers`: every successful
`addMember` result satisfies the capacity bound, `addMember` on a group whose
member count already equals `settings.maxMembers` (for a user who is not yet
a member) fails with `GROUP_FULL` instead of appending, and every group
produced by `createGroup` satisfies the bound. -/
theorem C1_capacity_invariant :
    (∀ (g g' : Group) (u : User) (now : Time),
        addMember g u now = Except.ok g' →
        g'.members.length ≤ g'.settings.maxMembers) ∧
    (∀ (g : Group) (u : User) (now : Time),
        isMember g u.id = false →
        g.members.length = g.settings.maxMembers →
        addMember g u now = Except.error DomainError.GROUP_FULL) ∧
    (∀ (gid : GroupId) (s : GroupSettings) (creator : User) (now : Time) (g : Group),
        createGroup gid s creator now = Except.ok g →
        g.members.length ≤ g.settings.maxMembers) := by
  refine ⟨?_, ?_, ?_⟩
  · intro g g' u now h
    obtain ⟨hjoin, rfl⟩ := addMember_ok g g' u now h
    obtain ⟨-, hlt, -, -⟩ := (canJoin_eq_none g u).mp hjoin
    simp only [List.length_append, List.length_cons, List.length_nil]
    omega
  · intro g u now hmem hfull
    unfold addMember canJoin
    rw [hmem]
    simp only [Bool.false_eq_true, if_false]
    rw [if_pos (by omega)]
  · intro gid s creator now g h
    unfold createGroup at h
    split_ifs at h with h1 h2 h3 h4 h5
    injection h with h
    subst h
    simpa using h4

/-- C1 witness: a group at capacity 1 rejects a fresh join with `GROUP_FULL`. -/
theorem C1_capacity_invariant_witness :
    addMember
      (⟨1, 13, [⟨13, MemberRole.ADMIN, MemberStatus.ACTIVE, 0⟩],
        ⟨100, Frequency.MONTHLY, 10, 400, 1, true, false, 0⟩,
        GroupStatus.ACTIVE, true⟩ : Group)
      (⟨14, true, true, 80⟩ : User) 5 = Except.error DomainError.GROUP_FULL :=
  C1_capacity_invariant.2.1 _ _ 5 (by decide) (by decide)

/-! ### C5 — join gate order -/

/-- C5: for an active group, joining fails with exactly the named error of the
first violated gate — `ALREADY_MEMBER`, then `GROUP_FULL`, then
`KYC_REQUIRED`, then `RELIABILITY_TOO_LOW` — and when every gate passes the
join succeeds and appends a MEMBER record. -/
theorem C5_join_gate_order (g : Group) (u : User) (now : Time)
    (hact : g.isActive = true) (hst : g.gstatus = GroupStatus.ACTIVE) :
    (isMember g u.id = true →
      joinGroup g u now = Except.error DomainError.ALREADY_MEMBER) ∧
    (isMember g u.id = false → g.settings.maxMembers ≤ g.members.length →
      joinGroup g u now = Except.error DomainError.GROUP_FULL) ∧
    (isMember g u.id = false → g.members.length < g.settings.maxMembers →
      g.settings.requiresKyc = true → u.isKycVerified = false →
      joinGroup g u now = Except.error DomainError.KYC_REQUIRED) ∧
    (isMember g u.id = false → g.members.length < g.settings.maxMembers →
      (g.settings.requiresKyc = true → u.isKycVerified = true) →
      u.reliabilityScore < g.settings.minReliabilityScore →
      joinGroup g u now = Except.error DomainError.RELIABILITY_TOO_LOW) ∧
    (isMember g u.id = false → g.members.length < g.settings.maxMembers →
      (g.settings.requiresKyc = true → u.isKycVerified = true) →
      g.settings.minReliabilityScore ≤ u.reliabilityScore →
      joinGroup g u now =
        Except.ok { g with
          members := g.members ++ [⟨u.id, MemberRole.MEMBER, MemberStatus.ACTIVE, now⟩] }) := by
  have hj : joinGroup g u now = addMember g u now := by
    unfold joinGroup
    rw [if_pos (by simp [hact, hst])]
  have hkyc : (g.settings.requiresKyc = true → u.isKycVerified = true) →
      (g.settings.requiresKyc && !u.isKycVerified) = false := by
    intro h
    cases hr : g.settings.requiresKyc with
    | false => simp
    | true => simp [h hr]
  refine ⟨?_, ?_, ?_, ?_, ?_⟩
  · intro hmem
    rw [hj]
    unfold addMember canJoin
    rw [hmem]
    simp
  · intro hmem hfull
    rw [hj]
    unfold addMember canJoin
    rw [hmem]
    simp only [Bool.false_eq_true, if_false]
    rw [if_pos hfull]
  · intro hmem hlt hreq hkv
    rw [hj]
    unfold addMember canJoin
    rw [hmem]
    simp only [Bool.false_eq_true, if_false]
    rw [if_neg (by omega), if_pos (by simp [hreq, hkv])]
  · intro hmem hlt hk hrel
    rw [hj]
    unfold addMember canJoin
    rw [hmem]
    simp only [Bool.false_eq_true, if_false]
    rw [if_neg (by omega), if_neg (by simp [hkyc hk]), if_pos hrel]
  · intro hmem hlt hk hrel
    rw [hj]
    unfold addMember canJoin
    rw [hmem]
    simp only [Bool.false_eq_true, if_false]
    rw [if_neg (by omega), if_neg (by simp [hkyc hk]), if_neg (by omega)]

/-! ### C6 — the creator can never leave -/

theorem user_of_roleUpdate (m : Membership) (uid : UserId) (r : MemberRole) :
    (if m.user = uid then { m with role := r } else m).user = m.user := by
  split <;> rfl

theorem updateMemberRole_ok (g g' : Group) (uid : UserId) (r : MemberRole)
    (h : updateMemberRole g uid r = Except.ok g') :
    isMember g uid = true ∧
      g' = { g with
              members := g.members.map
                (fun m => if m.user = uid then { m with role := r } else m) } := by
  unfold updateMemberRole at h
  split_ifs at h with hm
  exact ⟨hm, by injection h with h; exact h.symm⟩

/-- C6: on a group whose creator is a member, the creator's leave attempt
fails with `CREATOR_CANNOT_LEAVE`, a non-member's leave attempt fails with
`NOT_MEMBER`, the creator holds admin rights, and no successful
`removeMember`, `addMember` or `updateMemberRole` ever removes the creator
from the member list or strips the creator's admin rights. -/
theorem C6_creator_protected (g : Group) (hm : isMember g g.creator = true) :
    (leaveGroup g g.creator = Except.error DomainError.CREATOR_CANNOT_LEAVE) ∧
    (∀ uid, isMember g uid = false →
      leaveGroup g uid = Except.error DomainError.NOT_MEMBER) ∧
    (isAdmin g g.creator = true) ∧
    (∀ uid g', removeMember g uid = Except.ok g' →
      isMember g' g.creator = true ∧ isAdmin g' g.creator = true) ∧
    (∀ u now g', addMember g u now = Except.ok g' → isMember g' g.creator = true) ∧
    (∀ uid r g', updateMemberRole g uid r = Except.ok g' →
      isMember g' g.creator = true ∧ isAdmin g' g.creator = true) := by
  refine ⟨?_, ?_, ?_, ?_, ?_, ?_⟩
  · unfold leaveGroup removeMember canLeave
    rw [hm]
    simp
  · intro uid hnm
    unfold leaveGroup removeMember canLeave
    rw [hnm]
    simp
  · unfold isAdmin
    simp
  · intro uid g' h
    obtain ⟨hleave, rfl⟩ := removeMember_ok g g' uid h
    obtain ⟨-, hne⟩ := (canLeave_eq_none g uid).mp hleave
    constructor
    · unfold isMember at hm ⊢
      rw [List.any_eq_true] at hm ⊢
      obtain ⟨m, hmem, hu⟩ := hm
      refine ⟨m, List.mem_filter.mpr ⟨hmem, ?_⟩, hu⟩
      simp only [decide_eq_true_eq] at hu ⊢
      rw [hu]
      exact fun hc => hne hc.symm
    · unfold isAdmin
      simp
  · intro u now g' h
    obtain ⟨-, rfl⟩ := addMember_ok g g' u now h
    unfold isMember at hm ⊢
    rw [List.any_eq_true] at hm ⊢
    obtain ⟨m, hmem, hu⟩ := hm
    exact ⟨m, List.mem_append_left _ hmem, hu⟩
  · intro uid r g' h
    obtain ⟨-, rfl⟩ := updateMemberRole_ok g g' uid r h
    constructor
    · unfold isMember at hm ⊢
      rw [List.any_eq_true] at hm ⊢
      obtain ⟨m, hmem, hu⟩ := hm
      refine ⟨if m.user = uid then { m with role := r } else m,
        List.mem_map_of_mem _ hmem, ?_⟩
      rw [user_of_roleUpdate]
      exact hu
    · unfold isAdmin
      simp

/-- C6 witness: the creator of a two-member group cannot leave, and removing
the other member keeps the creator present with admin rights. -/
theorem C6_creator_protected_witness :
    leaveGroup
      (⟨1, 13, [⟨13, MemberRole.ADMIN, MemberStatus.ACTIVE, 0⟩,
                 ⟨14, MemberRole.MEMBER, MemberStatus.ACTIVE, 3⟩],
        ⟨100, Frequency.MONTHLY, 10, 400, 10, true, false, 0⟩,
        GroupStatus.ACTIVE, true⟩ : Group) 13 =
      Except.error DomainError.CREATOR_CANNOT_LEAVE :=
  (C6_creator_protected _ (by decide)).1

/-! ### C7 — admin recognition -/

/-- C7: `isAdmin` holds exactly for the creator and for members holding the
ADMIN role, and a member whose role has just been set to ADMIN by
`updateMemberRole` is recognized as an admin. -/
theorem C7_isAdmin_characterization (g : Group) (uid : UserId) :
    (isAdmin g uid = true ↔
      uid = g.creator ∨ ∃ m ∈ g.members, m.user = uid ∧ m.role = MemberRole.ADMIN) ∧
    (∀ g', updateMemberRole g uid MemberRole.ADMIN = Except.ok g' →
      isAdmin g' uid = true) := by
  constructor
  · unfold isAdmin
    simp [List.any_eq_true]
  · intro g' h
    obtain ⟨hmem, rfl⟩ := updateMemberRole_ok g g' uid MemberRole.ADMIN h
    unfold isMember at hmem
    rw [List.any_eq_true] at hmem
    obtain ⟨m, hmm, hu⟩ := hmem
    simp only [decide_eq_true_eq] at hu
    unfold isAdmin
    rw [Bool.or_eq_true]
    right
    rw [List.any_eq_true]
    refine ⟨if m.user = uid then { m with role := MemberRole.ADMIN } else m,
      List.mem_map_of_mem _ hmm, ?_⟩
    rw [if_pos hu]
    simp [hu]

/-- C7 witness: promoting a plain member to ADMIN makes `isAdmin` true for
that member. -/
theorem C7_isAdmin_characterization_witness :
    isAdmin
      (⟨1, 13, [⟨13, MemberRole.ADMIN, MemberStatus.ACTIVE, 0⟩,
                 ⟨14, MemberRole.ADMIN, MemberStatus.ACTIVE, 3⟩],
        ⟨100, Frequency.MONTHLY, 10, 400, 10, true, false, 0⟩,
        GroupStatus.ACTIVE, true⟩ : Group) 14 = true :=
  (C7_isAdmin_characterization
      (⟨1, 13, [⟨13, MemberRole.ADMIN, MemberStatus.ACTIVE, 0⟩,
                 ⟨14, MemberRole.MEMBER, MemberStatus.ACTIVE, 3⟩],
        ⟨100, Frequency.MONTHLY, 10, 400, 10, true, false, 0⟩,
        GroupStatus.ACTIVE, true⟩ : Group) 14).2 _ (by decide)

/-! ### C9 — updateMemberRole has no authorization gate -/

/-- C9: `updateMemberRole` fails only when the target user is not a member —
in which case the error is `NOT_MEMBER` — and for any member (the function
takes no acting-user argument, so no caller permission is consulted) it
succeeds and sets that member's role to the given role, including ADMIN. -/
theorem C9_updateMemberRole_unchecked (g : Group) (uid : UserId) (r : MemberRole) :
    (isMember g uid = false →
      updateMemberRole g uid r = Except.error DomainError.NOT_MEMBER) ∧
    (∀ e, updateMemberRole g uid r = Except.error e →
      e = DomainError.NOT_MEMBER ∧ isMember g uid = false) ∧
    (isMember g uid = true →
      updateMemberRole g uid r =
        Except.ok { g with
          members := g.members.map
            (fun m => if m.user = uid then { m with role := r } else m) }) ∧
    (∀ g', updateMemberRole g uid r = Except.ok g' →
      ∀ m ∈ g'.members, m.user = uid → m.role = r) := by
  refine ⟨?_, ?_, ?_, ?_⟩
  · intro hnm
    unfold updateMemberRole
    rw [hnm]
    simp
  · intro e h
    unfold updateMemberRole at h
    split_ifs at h with hm
    injection h with h
    exact ⟨h.symm, by simpa using hm⟩
  · intro hm
    unfold updateMemberRole
    rw [hm]
    simp
  · intro g' h m hmm hu
    obtain ⟨-, rfl⟩ := updateMemberRole_ok g g' uid r h
    simp only [List.mem_map] at hmm
    obtain ⟨m0, hm0, hf⟩ := hmm
    by_cases hcase : m0.user = uid
    · rw [if_pos hcase] at hf
      rw [← hf]
    · rw [if_neg hcase] at hf
      rw [← hf] at hu
      exact absurd hu hcase

/-- C9 witness: setting a non-creator member's role to ADMIN succeeds with no
acting-user argument in sight. -/
theorem C9_updateMemberRole_unchecked_witness :
    updateMemberRole
      (⟨1, 13, [⟨13, MemberRole.ADMIN, MemberStatus.ACTIVE, 0⟩,
                 ⟨14, MemberRole.MEMBER, MemberStatus.ACTIVE, 3⟩],
        ⟨100, Frequency.MONTHLY, 10, 400, 10, true, false, 0⟩,
        GroupStatus.ACTIVE, true⟩ : Group) 14 MemberRole.ADMIN =
      Except.ok
        (⟨1, 13, [⟨13, MemberRole.ADMIN, MemberStatus.ACTIVE, 0⟩,
                   ⟨14, MemberRole.ADMIN, MemberStatus.ACTIVE, 3⟩],
          ⟨100, Frequency.MONTHLY, 10, 400, 10, true, false, 0⟩,
          GroupStatus.ACTIVE, true⟩ : Group) := by
  have h := (C9_updateMemberRole_unchecked
      (⟨1, 13, [⟨13, MemberRole.ADMIN, MemberStatus.ACTIVE, 0⟩,
                 ⟨14, MemberRole.MEMBER, MemberStatus.ACTIVE, 3⟩],
        ⟨100, Frequency.MONTHLY, 10, 400, 10, true, false, 0⟩,
        GroupStatus.ACTIVE, true⟩ : Group) 14 MemberRole.ADMIN).2.2.1 (by decide)
  rw [h]
  decide

/-- C5 witness: on an active group requiring KYC, an unverified non-member is
rejected with `KYC_REQUIRED`. -/
theorem C5_join_gate_order_witness :
    joinGroup
      (⟨1, 13, [⟨13, MemberRole.ADMIN, MemberStatus.ACTIVE, 0⟩],
        ⟨100, Frequency.MONTHLY, 10, 400, 10, true, true, 0⟩,
        GroupStatus.ACTIVE, true⟩ : Group)
      (⟨14, true, false, 80⟩ : User) 5 = Except.error DomainError.KYC_REQUIRED :=
  (C5_join_gate_order _ _ 5 (by decide) (by decide)).2.2.1 (by decide) (by decide)
    (by decide) (by decide)

/-! ### C2 — contribution status transitions are monotonic -/

theorem markAsPaid_ok (c c' : Contribution) (pay : Payment) (now : Time)
    (h : markAsPaid c pay now = Except.ok c') :
    c.cstatus = ContributionStatus.PENDING ∧
      pay.pstatus = PaymentStatus.SUCCEEDED ∧ pay.user = c.user ∧
      c' = { c with cstatus := ContributionStatus.PAID,
                    payment := some pay.id, paidAt := some now } := by
  unfold markAsPaid at h
  split_ifs at h with h1 h2
  exact ⟨h1, h2.1, h2.2, by injection h with h; exact h.symm⟩

theorem cancel_ok (c c' : Contribution) (reason : String)
    (h : cancel c reason = Except.ok c') :
    c.cstatus ≠ ContributionStatus.PAID ∧ c.cstatus ≠ ContributionStatus.CANCELLED ∧
      c' = { c with cstatus := ContributionStatus.CANCELLED,
                    cancelReason := some reason } := by
  unfold cancel at h
  split_ifs at h with h1
  push_neg at h1
  exact ⟨h1.1, h1.2, by injection h with h; exact h.symm⟩

theorem addPenalty_ok (c c' : Contribution) (amount : Int) (reason : String) (now : Time)
    (h : addPenalty c amount reason now = Except.ok c') :
    (c.cstatus = ContributionStatus.PENDING ∨ c.cstatus = ContributionStatus.OVERDUE) ∧
      c' = { c with penalties := c.penalties ++ [⟨amount, reason, now⟩] } := by
  unfold addPenalty at h
  split_ifs at h with h1
  exact ⟨h1, by injection h with h; exact h.symm⟩

/-- C2: on every stored (hence non-OVERDUE) contribution, a successful
`markAsPaid` moves PENDING to PAID, a successful `cancel` moves PENDING to
CANCELLED, `addPenalty` and `updateContribution` never change the status, and
once the status is terminal (PAID or CANCELLED) every status-changing
operation fails with `INVALID_STATE_TRANSITION` — so no contribution leaves a
terminal state or returns to PENDING. -/
theorem C2_status_monotonic (c c' : Contribution) (pay : Payment)
    (now : Time) (amount : Int) (reason desc : String)
    (hs : c.cstatus ≠ ContributionStatus.OVERDUE) :
    (markAsPaid c pay now = Except.ok c' →
      c.cstatus = ContributionStatus.PENDING ∧
      c'.cstatus = ContributionStatus.PAID) ∧
    (cancel c reason = Except.ok c' →
      c.cstatus = ContributionStatus.PENDING ∧
      c'.cstatus = ContributionStatus.CANCELLED) ∧
    (addPenalty c amount reason now = Except.ok c' → c'.cstatus = c.cstatus) ∧
    (updateContribution c desc = Except.ok c' → c'.cstatus = c.cstatus) ∧
    (c.cstatus = ContributionStatus.PAID ∨ c.cstatus = ContributionStatus.CANCELLED →
      markAsPaid c pay now = Except.error DomainError.INVALID_STATE_TRANSITION ∧
      cancel c reason = Except.error DomainError.INVALID_STATE_TRANSITION ∧
      addPenalty c amount reason now =
        Except.error DomainError.INVALID_STATE_TRANSITION) := by
  refine ⟨?_, ?_, ?_, ?_, ?_⟩
  · intro h
    obtain ⟨h1, -, -, rfl⟩ := markAsPaid_ok c c' pay now h
    exact ⟨h1, rfl⟩
  · intro h
    obtain ⟨h1, h2, rfl⟩ := cancel_ok c c' reason h
    refine ⟨?_, rfl⟩
    cases hc : c.cstatus <;> simp_all
  · intro h
    obtain ⟨-, rfl⟩ := addPenalty_ok c c' amount reason now h
    rfl
  · intro h
    unfold updateContribution at h
    injection h with h
    rw [← h]
  · intro hterm
    refine ⟨?_, ?_, ?_⟩
    · unfold markAsPaid
      rw [if_neg (by rcases hterm with h | h <;> simp [h])]
    · unfold cancel
      rw [if_pos hterm]
    · unfold addPenalty
      rw [if_neg (by rcases hterm with h | h <;> simp [h])]

/-- C2 witness: a PAID contribution rejects `cancel` with
`INVALID_STATE_TRANSITION`. -/
theorem C2_status_monotonic_witness :
    cancel
      (⟨1, 13, 100, 50, 50, "", ContributionStatus.PAID, [], some 7, some 40, none⟩ :
        Contribution) "mistake" = Except.error DomainError.INVALID_STATE_TRANSITION :=
  ((C2_status_monotonic
      (⟨1, 13, 100, 50, 50, "", ContributionStatus.PAID, [], some 7, some 40, none⟩ :
        Contribution)
      (⟨1, 13, 100, 50, 50, "", ContributionStatus.PAID, [], some 7, some 40, none⟩ :
        Contribution)
      (⟨7, 13, PaymentStatus.SUCCEEDED⟩ : Payment) 60 5 "late" "mistake"
      (by decide)).2.2.2.2 (Or.inl rfl)).2.1

/-! ### C3 — overdue is derived, never stored -/

/-- C3: the overdue condition is exactly the derived predicate
`status == PENDING && now > dueDate`; `getOverdue` selects exactly the stored
contributions satisfying it and `getStatistics` counts overdue with the same
predicate; a successful `markAsPaid` makes it false at every instant; and no
creation or operation ever stores the OVERDUE status. -/
theorem C3_overdue_derived (c c' : Contribution) (pay : Payment)
    (cs : List Contribution) (now t : Time) :
    (isOverdue c t = true ↔
      c.cstatus = ContributionStatus.PENDING ∧ c.dueDate < t) ∧
    (∀ x, x ∈ findOverdue cs now ↔
      x ∈ cs ∧ x.cstatus = ContributionStatus.PENDING ∧ x.dueDate < now) ∧
    ((getStatistics cs now).overdue = (findOverdue cs now).length) ∧
    (markAsPaid c pay now = Except.ok c' → ∀ u, isOverdue c' u = false) ∧
    (∀ (g : Group) (uid : UserId) (p : Time),
      (generatedContribution g uid p).cstatus = ContributionStatus.PENDING) ∧
    (∀ (existing : List Contribution) (g : Group) (uid : UserId) (amount : Int)
        (dueDate : Time) (desc : String) (t2 : Time) (c2 : Contribution),
      createContribution existing g uid amount dueDate desc t2 = Except.ok c2 →
      c2.cstatus = ContributionStatus.PENDING) ∧
    (c.cstatus ≠ ContributionStatus.OVERDUE →
      ∀ (amount : Int) (reason desc : String),
        (markAsPaid c pay now = Except.ok c' ∨ cancel c reason = Except.ok c' ∨
         addPenalty c amount reason now = Except.ok c' ∨
         updateContribution c desc = Except.ok c') →
        c'.cstatus ≠ ContributionStatus.OVERDUE) := by
  refine ⟨?_, ?_, ?_, ?_, ?_, ?_, ?_⟩
  · unfold isOverdue
    simp
  · intro x
    unfold findOverdue isOverdue
    simp [List.mem_filter, and_assoc]
  · rfl
  · intro h u
    obtain ⟨-, -, -, rfl⟩ := markAsPaid_ok c c' pay now h
    unfold isOverdue
    simp
  · intro g uid p
    rfl
  · intro existing g uid amount dueDate desc t2 c2 h
    unfold createContribution at h
    split_ifs at h
    injection h with h
    rw [← h]
  · intro hs amount reason desc h
    rcases h with h | h | h | h
    · obtain ⟨-, -, -, rfl⟩ := markAsPaid_ok c c' pay now h
      simp
    · obtain ⟨-, -, rfl⟩ := cancel_ok c c' reason h
      simp
    · obtain ⟨-, rfl⟩ := addPenalty_ok c c' amount reason now h
      exact hs
    · unfold updateContribution at h
      injection h with h
      rw [← h]
      exact hs

/-- C3 witness: a PENDING contribution past its due date is overdue, and
after a successful `markAsPaid` it is not overdue at any probed instant. -/
theorem C3_overdue_derived_witness :
    isOverdue
      (⟨1, 13, 100, 50, 50, "", ContributionStatus.PENDING, [], none, none, none⟩ :
        Contribution) 60 = true ∧
    isOverdue
      (⟨1, 13, 100, 50, 50, "", ContributionStatus.PAID, [], some 7, some 60, none⟩ :
        Contribution) 60 = false := by
  constructor
  · exact (C3_overdue_derived
      (⟨1, 13, 100, 50, 50, "", ContributionStatus.PENDING, [], none, none, none⟩ :
        Contribution)
      (⟨1, 13, 100, 50, 50, "", ContributionStatus.PAID, [], some 7, some 60, none⟩ :
        Contribution)
      (⟨7, 13, PaymentStatus.SUCCEEDED⟩ : Payment) [] 60 60).1.mpr ⟨rfl, by decide⟩
  · exact (C3_overdue_derived
      (⟨1, 13, 100, 50, 50, "", ContributionStatus.PENDING, [], none, none, none⟩ :
        Contribution)
      (⟨1, 13, 100, 50, 50, "", ContributionStatus.PAID, [], some 7, some 60, none⟩ :
        Contribution)
      (⟨7, 13, PaymentStatus.SUCCEEDED⟩ : Payment) [] 60 60).2.2.2.1 (by decide) 60

/-! ### C8 — markAsPaid requires a settled payment of the same user -/

/-- C8: `markAsPaid` succeeds exactly from PENDING with a SUCCEEDED payment
of the contribution's own user — any success exhibits those preconditions and
produces PAID with the payment linked and `paidAt` recorded; a PENDING
contribution with a non-SUCCEEDED payment fails with `PAYMENT_NOT_SETTLED`;
and a PENDING contribution (regardless of its due date, so also one past due)
with a settled own payment succeeds. -/
theorem C8_markAsPaid_settled (c c' : Contribution) (pay : Payment) (now : Time) :
    (markAsPaid c pay now = Except.ok c' →
      c.cstatus = ContributionStatus.PENDING ∧
      pay.pstatus = PaymentStatus.SUCCEEDED ∧ pay.user = c.user ∧
      c'.cstatus = ContributionStatus.PAID ∧
      c'.payment = some pay.id ∧ c'.paidAt = some now) ∧
    (c.cstatus = ContributionStatus.PENDING →
      pay.pstatus ≠ PaymentStatus.SUCCEEDED →
      markAsPaid c pay now = Except.error DomainError.PAYMENT_NOT_SETTLED) ∧
    (c.cstatus = ContributionStatus.PENDING →
      pay.pstatus = PaymentStatus.SUCCEEDED → pay.user = c.user →
      markAsPaid c pay now =
        Except.ok { c with cstatus := ContributionStatus.PAID,
                           payment := some pay.id, paidAt := some now }) := by
  refine ⟨?_, ?_, ?_⟩
  · intro h
    obtain ⟨h1, h2, h3, rfl⟩ := markAsPaid_ok c c' pay now h
    exact ⟨h1, h2, h3, rfl, rfl, rfl⟩
  · intro h1 h2
    unfold markAsPaid
    rw [if_pos h1, if_neg (by intro hc; exact h2 hc.1)]
  · intro h1 h2 h3
    unfold markAsPaid
    rw [if_pos h1, if_pos ⟨h2, h3⟩]

/-- C8 witness: a PENDING contribution past its due date is paid by a
SUCCEEDED payment of its user, while a PENDING payment is rejected with
`PAYMENT_NOT_SETTLED`. -/
theorem C8_markAsPaid_settled_witness :
    markAsPaid
      (⟨1, 13, 100, 50, 50, "", ContributionStatus.PENDING, [], none, none, none⟩ :
        Contribution) (⟨7, 13, PaymentStatus.SUCCEEDED⟩ : Payment) 60 =
      Except.ok
        (⟨1, 13, 100, 50, 50, "", ContributionStatus.PAID, [], some 7, some 60, none⟩ :
          Contribution) ∧
    markAsPaid
      (⟨1, 13, 100, 50, 50, "", ContributionStatus.PENDING, [], none, none, none⟩ :
        Contribution) (⟨7, 13, PaymentStatus.PENDING⟩ : Payment) 60 =
      Except.error DomainError.PAYMENT_NOT_SETTLED := by
  constructor
  · have h := (C8_markAsPaid_settled
      (⟨1, 13, 100, 50, 50, "", ContributionStatus.PENDING, [], none, none, none⟩ :
        Contribution)
      (⟨1, 13, 100, 50, 50, "", ContributionStatus.PAID, [], some 7, some 60, none⟩ :
        Contribution)
      (⟨7, 13, PaymentStatus.SUCCEEDED⟩ : Payment) 60).2.2 rfl rfl rfl
    rw [h]
  · exact (C8_markAsPaid_settled
      (⟨1, 13, 100, 50, 50, "", ContributionStatus.PENDING, [], none, none, none⟩ :
        Contribution)
      (⟨1, 13, 100, 50, 50, "", ContributionStatus.PAID, [], some 7, some 60, none⟩ :
        Contribution)
      (⟨7, 13, PaymentStatus.PENDING⟩ : Payment) 60).2.1 rfl (by decide)

/-! ### C4 — contribution generation is idempotent -/

theorem hasContribution_append (cs ds : List Contribution) (gid : GroupId)
    (uid : UserId) (p : Time) :
    hasContribution (cs ++ ds) gid uid p =
      (hasContribution cs gid uid p || hasContribution ds gid uid p) := by
  unfold hasContribution
  exact List.any_append ..

theorem mem_generate_iff (cs : List Contribution) (g : Group) (s e : Nat)
    (x : Contribution) :
    x ∈ generateContributions cs g s e ↔
      ∃ p ∈ periodMarkers (freqStep g.settings.contributionFrequency) s e,
        ∃ m ∈ activeMembers g,
          (if p < m.joinedAt then none
           else if hasContribution cs g.id m.user p then none
           else some (generatedContribution g m.user p)) = some x := by
  unfold generateContributions
  simp only [List.mem_flatMap, List.mem_filterMap]

theorem generated_mem_generate (cs : List Contribution) (g : Group) (s e : Nat)
    (p : Time) (m : Membership)
    (hp : p ∈ periodMarkers (freqStep g.settings.contributionFrequency) s e)
    (hm : m ∈ activeMembers g) (hjoin : ¬ p < m.joinedAt)
    (hno : hasContribution cs g.id m.user p = false) :
    generatedContribution g m.user p ∈ generateContributions cs g s e := by
  rw [mem_generate_iff]
  refine ⟨p, hp, m, hm, ?_⟩
  rw [if_neg hjoin, hno]
  simp

theorem hasContribution_of_generated (ds : List Contribution) (g : Group)
    (uid : UserId) (p : Time) (hmem : generatedContribution g uid p ∈ ds) :
    hasContribution ds g.id uid p = true := by
  unfold hasContribution
  rw [List.any_eq_true]
  exact ⟨generatedContribution g uid p, hmem, by simp [generatedContribution]⟩

/-- C4: generation is idempotent — re-running `generateContributions` for the
same group and date range against the store extended by the first run's
output creates zero new contributions, because every (group, user, period)
pair of the cross-product is skipped as already present. -/
theorem C4_generate_idempotent (cs : List Contribution) (g : Group) (s e : Nat) :
    generateContributions (cs ++ generateContributions cs g s e) g s e = [] := by
  rw [List.eq_nil_iff_forall_not_mem]
  intro x hx
  rw [mem_generate_iff] at hx
  obtain ⟨p, hp, m, hm, hfx⟩ := hx
  by_cases hjoin : p < m.joinedAt
  · rw [if_pos hjoin] at hfx
    exact Option.noConfusion hfx
  rw [if_neg hjoin] at hfx
  by_cases hhas :
      hasContribution (cs ++ generateContributions cs g s e) g.id m.user p = true
  · rw [hhas] at hfx
    exact Option.noConfusion hfx
  rw [Bool.not_eq_true] at hhas
  rw [hasContribution_append] at hhas
  rw [Bool.or_eq_false_iff] at hhas
  obtain ⟨hcs, hnew⟩ := hhas
  have hin : generatedContribution g m.user p ∈ generateContributions cs g s e :=
    generated_mem_generate cs g s e p m hp hm hjoin hcs
  have := hasContribution_of_generated (generateContributions cs g s e) g m.user p hin
  rw [this] at hnew
  exact Bool.noConfusion hnew

/-! ### C10 — send-message target validation is an exclusive-or -/

/-- C10: the send-message validator rejects every body that provides neither
`recipientId` nor `groupId` and every body that provides both, and any body
that passes validation carries exactly one of the two targets (a non-empty
one, the other key absent). -/
theorem C10_sendMessage_target_xor (b : SendMessageBody) :
    (b.recipientId = none → b.groupId = none →
      validationPasses (sendMessageValidate b) = false) ∧
    (∀ r gi, b.recipientId = some r → b.groupId = some gi →
      validationPasses (sendMessageValidate b) = false) ∧
    (validationPasses (sendMessageValidate b) = true →
      (∃ r, r ≠ "" ∧ b.recipientId = some r ∧ b.groupId = none) ∨
      (∃ gi, gi ≠ "" ∧ b.groupId = some gi ∧ b.recipientId = none)) := by
  refine ⟨?_, ?_, ?_⟩
  · intro hr hg
    unfold sendMessageValidate
    rw [hr, hg]
    split_ifs <;> simp_all [validationPasses, jsTruthy]
  · intro r gi hr hg
    unfold sendMessageValidate
    rw [hr, hg]
    by_cases hre : r = ""
    · rw [if_pos (by rw [hre])]
      rfl
    rw [if_neg (by simpa using hre)]
    by_cases hge : gi = ""
    · rw [if_pos (by rw [hge])]
      rfl
    rw [if_neg (by simpa using hge)]
    have ht : (jsTruthy (some r) && jsTruthy (some gi)) = true := by
      simp [jsTruthy, hre, hge]
    by_cases hc : b.content = ""
    · rw [if_pos hc]
      rfl
    rw [if_neg hc]
    by_cases hl : maxMessageLength < b.content.length
    · rw [if_pos hl]
      rfl
    rw [if_neg hl, if_neg (by simp [jsTruthy, hre, hge]), if_pos ht]
    rfl
  · intro hpass
    unfold sendMessageValidate at hpass
    split_ifs at hpass with h1 h2 h3 h4 h5 h6 <;>
      try exact Bool.noConfusion hpass
    rcases hr : b.recipientId with - | r <;> rcases hg : b.groupId with - | gi
    · refine absurd ?_ h5
      rw [hr, hg]
      rfl
    · right
      refine ⟨gi, ?_, rfl, rfl⟩
      intro hge
      rw [hge] at hg
      exact h2 hg
    · left
      refine ⟨r, ?_, rfl, rfl⟩
      intro hre
      rw [hre] at hr
      exact h1 hr
    · by_cases hre : r = ""
      · rw [hre] at hr
        exact absurd hr h1
      by_cases hge : gi = ""
      · rw [hge] at hg
        exact absurd hg h2
      refine absurd ?_ h6
      rw [hr, hg]
      simp [jsTruthy, hre, hge]

/-- C10 witness: both targets rejected, no target rejected, and a single
non-empty target passes. -/
theorem C10_sendMessage_target_xor_witness :
    validationPasses
      (sendMessageValidate ⟨some "u1", some "g1", "hello"⟩) = false ∧
    validationPasses (sendMessageValidate ⟨none, none, "hello"⟩) = false ∧
    ((∃ r, r ≠ "" ∧ (⟨some "u1", none, "hello"⟩ : SendMessageBody).recipientId = some r ∧
        (⟨some "u1", none, "hello"⟩ : SendMessageBody).groupId = none) ∨
      (∃ gi, gi ≠ "" ∧ (⟨some "u1", none, "hello"⟩ : SendMessageBody).groupId = some gi ∧
        (⟨some "u1", none, "hello"⟩ : SendMessageBody).recipientId = none)) := by
  refine ⟨?_, ?_, ?_⟩
  · exact (C10_sendMessage_target_xor ⟨some "u1", some "g1", "hello"⟩).2.1
      "u1" "g1" rfl rfl
  · exact (C10_sendMessage_target_xor ⟨none, none, "hello"⟩).1 rfl rfl
  · exact (C10_sendMessage_target_xor ⟨some "u1", none, "hello"⟩).2.2 (by decide)

end Tirelire
